import Mathlib

/-!
# Verification of `src/crypto/PrivateKeyBundle.ts` (xmtp-js)

Shallow embedding of the `PrivateKeyBundle` class and its collaborators.
Only `PrivateKeyBundle.ts` is present in the repository snapshot; the
collaborators it imports (`PrivateKey`, `PublicKey`, `PublicKeyBundle`,
`Ciphertext`, `encryption`, the protobuf codecs and the wallet signer) are
modelled from the specification, with doc comments marking each such
definition.  TypeScript nullability (`undefined` fields, property access on
`undefined` throwing a `TypeError`) is modelled with `Option`; thrown
`Error`s are modelled with `Except` over an explicit error type whose
constructors correspond to the thrown messages.  Entropy draws are passed
in as explicit parameters.
-/

deriving instance DecidableEq for Except

namespace Xmtp

/-- Errors thrown by the bundle operations.  Each constructor corresponds to
a distinct `throw new Error(...)` message in the source (or, for
`signerFailure` / `decryptionFailure` / `typeError`, to an exception
propagated from the external signer, the AEAD layer, or a JavaScript
`TypeError` raised by property access on `undefined`). -/
inductive KeyBundleError where
  | invalidPeerBundle
  | preKeySignatureInvalid
  | missingIdentityKey
  | preKeyNotFound
  | missingPreKeys
  | missingWalletPreKey
  | missingCiphertext
  | signerFailure
  | decryptionFailure
  | typeError
  deriving DecidableEq, Repr

/-- Modelled from the spec: the secret-scalar-to-public-point map of the
curve (`PrivateKey.generate` derives the public key from the secret).  Any
map works for the claims about `PrivateKeyBundle`; we use an injective
affine map so that distinct secrets give distinct points, as on the real
curve. -/
def pubPoint (secret : Nat) : Nat := 2 * secret + 1

/-- Modelled from the spec: a fixed-width little-endian byte rendering of a
natural number, standing in for the fixed-length per-curve byte encoding of
a Diffie-Hellman output. -/
def natToBytes4 (n : Nat) : List Nat :=
  [n % 256, n / 256 % 256, n / 256 ^ 2 % 256, n / 256 ^ 3 % 256]

/-- Modelled from the spec: the Diffie-Hellman combine of a local secret
scalar with a peer public point, returning fixed-length bytes.  The spec
requires it to be commutative: `A.sharedSecret(B.public) ==
B.secret.sharedSecret(A.public)` bit-for-bit (`dh_comm` below). -/
def dhBytes (secret point : Nat) : List Nat :=
  natToBytes4 (secret * ((point - 1) / 2))

/-- Modelled from the spec: a signature over a public point, produced with a
secret scalar and verifiable from the corresponding public point alone. -/
def signBytes (signerSecret message : Nat) : Nat :=
  pubPoint signerSecret * 4294967296 + message

/-- Modelled from the spec (`PublicKey`): a curve point together with an
optional attached signature produced by another key over this key's
canonical bytes. -/
structure PublicKey where
  point : Nat
  signature : Option Nat
  deriving DecidableEq, Repr

/-- Modelled from the spec (`PublicKey.verifyKey`): verify the signature
attached to `pre` against this (identity) public key; a pre-key carrying no
signature is unverifiable, hence rejected. -/
def PublicKey.verifyKey (idk : PublicKey) (pre : PublicKey) : Bool :=
  match pre.signature with
  | none => false
  | some sig => sig == idk.point * 4294967296 + pre.point

/-- Modelled from the spec (`PrivateKey`): a secret scalar together with its
public half. -/
structure PrivateKey where
  secret : Nat
  publicKey : PublicKey
  deriving DecidableEq, Repr

/-- Modelled from the spec (`PrivateKey.generate`): a fresh key pair from an
entropy draw, passed in as the explicit `secret` parameter. -/
def PrivateKey.generate (secret : Nat) : PrivateKey :=
  { secret := secret, publicKey := { point := pubPoint secret, signature := none } }

/-- Modelled from the spec (`PrivateKey.sharedSecret`): Diffie-Hellman
combine of this secret with the peer's public point. -/
def PrivateKey.sharedSecret (k : PrivateKey) (peer : PublicKey) : List Nat :=
  dhBytes k.secret peer.point

/-- Modelled from the spec (`PrivateKey.matches`): true iff this key's
public half equals the given public key (compared on the curve point, the
"derived public half"). -/
def PrivateKey.matches (k : PrivateKey) (which : PublicKey) : Bool :=
  k.publicKey.point == which.point

/-- Modelled from the spec (`PrivateKey.signKey`): sign `pub`'s canonical
bytes with this key's secret and attach the resulting signature to `pub`. -/
def PrivateKey.signKey (idk : PrivateKey) (pub : PublicKey) : PublicKey :=
  { pub with signature := some (signBytes idk.secret pub.point) }

/-- Modelled from the spec (`PublicKeyBundle`): the identity public key plus
the currently advertised pre-key public half.  The fields are `Option`
because `sharedSecret` explicitly guards against their absence. -/
structure PublicKeyBundle where
  identityKey : Option PublicKey
  preKey : Option PublicKey
  deriving DecidableEq, Repr

/-- `PrivateKeyBundle`: one identity key plus an ordered list of pre-keys,
most recent first.  `identityKey` is `Option` because `sharedSecret`,
`encode` and `decode` explicitly guard against its absence. -/
structure PrivateKeyBundle where
  identityKey : Option PrivateKey
  preKeys : List PrivateKey
  deriving DecidableEq, Repr

/-- The constructor: `preKeys` is optional and defaults to the empty list
(`this.preKeys = preKeys || []`). -/
def PrivateKeyBundle.mkCtor (identityKey : PrivateKey)
    (preKeys : Option (List PrivateKey)) : PrivateKeyBundle :=
  { identityKey := some identityKey, preKeys := preKeys.getD [] }

/-- `getCurrentPreKey`: `this.preKeys[0]`, which is `undefined` (here
`none`) when the list is empty. -/
def PrivateKeyBundle.getCurrentPreKey (b : PrivateKeyBundle) : Option PrivateKey :=
  b.preKeys.head?

/-- `findPreKey`: linear scan for a pre-key whose public half matches;
throws `no matching pre-key found` if none does. -/
def PrivateKeyBundle.findPreKey (b : PrivateKeyBundle) (which : PublicKey) :
    Except KeyBundleError PrivateKey :=
  match b.preKeys.find? (fun key => key.matches which) with
  | none => .error .preKeyNotFound
  | some preKey => .ok preKey

/-- The pre-key produced by `addPreKey` from entropy draw `s`: a fresh key
pair whose public half carries the identity key's signature
(`this.identityKey.signKey(preKey.publicKey)`). -/
def mkSignedPreKey (idk : PrivateKey) (s : Nat) : PrivateKey :=
  let preKey := PrivateKey.generate s
  { preKey with publicKey := idk.signKey preKey.publicKey }

/-- `addPreKey`: generate a new pre-key, have the identity key sign its
public half, insert at position 0 (`unshift`).  Calling it on a bundle
whose `identityKey` is absent throws a `TypeError` (modelled as `none`). -/
def PrivateKeyBundle.addPreKey (b : PrivateKeyBundle) (s : Nat) :
    Option PrivateKeyBundle :=
  match b.identityKey with
  | none => none
  | some idk => some { b with preKeys := mkSignedPreKey idk s :: b.preKeys }

/-- `addPreKey` with the outcome of the identity key's (asynchronous,
cancellable) signing step made explicit: `signResult = none` models a sign
operation that fails or is cancelled.  Mirrors the statement order of the
source: the key is generated, then signed, and only then is the list
mutated (`unshift` is the last statement), so on failure the returned
post-state is the unchanged bundle.  The second component records whether
the call completed. -/
def PrivateKeyBundle.addPreKeyWith (b : PrivateKeyBundle) (s : Nat)
    (signResult : Option Nat) : PrivateKeyBundle × Bool :=
  match b.identityKey, signResult with
  | some _, some sig =>
      ({ b with preKeys :=
          { PrivateKey.generate s with
              publicKey := { point := pubPoint s, signature := some sig } } :: b.preKeys },
        true)
  | _, _ => (b, false)

/-- `generate`: create an identity key, wrap it in a bundle and call
`addPreKey` exactly once.  Models the no-wallet call (`wallet` absent): the
wallet branch only attaches an attestation signature to the identity key's
public half and is unused by every claim.  Entropy draws are passed in as
`idSecret` and `preSecret`. -/
def PrivateKeyBundle.generate (idSecret preSecret : Nat) : PrivateKeyBundle :=
  let bundle := PrivateKeyBundle.mkCtor (PrivateKey.generate idSecret) none
  (bundle.addPreKey preSecret).getD bundle

/-- `getPublicKeyBundle`: projects
`{identityKey.publicKey, getCurrentPreKey().publicKey}`.  When the identity
key or the current pre-key is `undefined`, the property access throws a
`TypeError` (modelled as `none`). -/
def PrivateKeyBundle.getPublicKeyBundle (b : PrivateKeyBundle) :
    Option PublicKeyBundle :=
  match b.identityKey, b.getCurrentPreKey with
  | some idk, some cur => some { identityKey := some idk.publicKey, preKey := some cur.publicKey }
  | _, _ => none

/-- `sharedSecret`: the X3DH-style triple Diffie-Hellman derivation, lines
66-95 of the source.  Validation in source order: peer bundle fields, peer
pre-key signature, local identity key.  The role branch selects the local
pre-key (`findPreKey` for the recipient, `getCurrentPreKey` for the sender)
and fixes the concatenation order of the three DH outputs. -/
def PrivateKeyBundle.sharedSecret (b : PrivateKeyBundle) (peer : PublicKeyBundle)
    (recipientPreKey : Option PublicKey) : Except KeyBundleError (List Nat) :=
  match peer.identityKey, peer.preKey with
  | some peerIdentityKey, some peerPreKey =>
    if peerIdentityKey.verifyKey peerPreKey then
      match b.identityKey with
      | none => .error .missingIdentityKey
      | some identityKey =>
        match recipientPreKey with
        | some which =>
          match b.findPreKey which with
          | .error e => .error e
          | .ok preKey =>
            let dh1 := preKey.sharedSecret peerIdentityKey
            let dh2 := identityKey.sharedSecret peerPreKey
            let dh3 := preKey.sharedSecret peerPreKey
            .ok (dh1 ++ dh2 ++ dh3)
        | none =>
          match b.getCurrentPreKey with
          | none => .error .typeError
          | some preKey =>
            let dh1 := identityKey.sharedSecret peerPreKey
            let dh2 := preKey.sharedSecret peerIdentityKey
            let dh3 := preKey.sharedSecret peerPreKey
            .ok (dh1 ++ dh2 ++ dh3)
    else .error .preKeySignatureInvalid
  | _, _ => .error .invalidPeerBundle

/-- Modelled from the spec (the `proto.PrivateKeyBundle` message): the
serialized plaintext form of a bundle.  Protobuf serialization is modelled
as the identity on the message value itself; `identityKey` is optional on
the wire, and `preKeys` defaults to the empty sequence, which is how a
truncated or tampered stored bundle can decode to a message missing either
field. -/
structure ProtoPrivateKeyBundle where
  identityKey : Option PrivateKey
  preKeys : List PrivateKey
  deriving DecidableEq, Repr

/-- Modelled from the spec (the AEAD payload inside `Ciphertext`): the
authenticated payload together with the key material it was sealed under;
recording the key models the AEAD authentication tag, so decryption under a
different key fails rather than returning wrong plaintext. -/
structure AesGcmPayload where
  keyMaterial : List Nat
  payload : ProtoPrivateKeyBundle
  deriving DecidableEq, Repr

/-- Modelled from the spec (`Ciphertext`): a tagged union with one
recognized variant, `aes256GcmHkdfSha256`; absent means the variant is
missing or unrecognized. -/
structure CiphertextMsg where
  aes256GcmHkdfSha256 : Option AesGcmPayload
  deriving DecidableEq, Repr

/-- Modelled from the spec (the `proto.EncryptedPrivateKeyBundle` message):
the persisted envelope, `{walletPreKey, ciphertext}`, either field possibly
absent in parsed storage bytes. -/
structure EncryptedPrivateKeyBundleMsg where
  walletPreKey : Option (List Nat)
  ciphertext : Option CiphertextMsg
  deriving DecidableEq, Repr

/-- Modelled from the spec: the external wallet signer,
`signMessage(bytes) -> hex signature` composed with `hexToBytes`; `none`
models a signer that fails or is cancelled.  Determinism is inherent in the
functional model: `encode` and `decode` consult the same function. -/
def WalletSigner : Type := List Nat → Option (List Nat)

/-- Modelled from the spec (`encryption.encrypt`): AEAD-encrypt the
serialized bundle under key material derived from `secret`. -/
def encryptModel (bytes : ProtoPrivateKeyBundle) (secret : List Nat) : CiphertextMsg :=
  { aes256GcmHkdfSha256 := some { keyMaterial := secret, payload := bytes } }

/-- Modelled from the spec (`encryption.decrypt`): AEAD-decrypt; fails
(authentication failure) unless the key material matches. -/
def decryptModel (c : CiphertextMsg) (secret : List Nat) : Option ProtoPrivateKeyBundle :=
  match c.aes256GcmHkdfSha256 with
  | none => none
  | some a => if a.keyMaterial = secret then some a.payload else none

/-- `encode`: lines 98-117 of the source.  Precondition checks in source
order (`missing pre-keys`, then `missing identity key`), then serialize the
contents, draw 32 random bytes (`wPreKey`, passed in as an explicit
parameter), obtain the symmetric secret from the wallet signer, AEAD-encrypt
and emit the envelope. -/
def PrivateKeyBundle.encode (b : PrivateKeyBundle) (wallet : WalletSigner)
    (wPreKey : List Nat) : Except KeyBundleError EncryptedPrivateKeyBundleMsg :=
  if b.preKeys.length = 0 then .error .missingPreKeys
  else
    match b.identityKey with
    | none => .error .missingIdentityKey
    | some identityKey =>
      let bytes : ProtoPrivateKeyBundle :=
        { identityKey := some identityKey, preKeys := b.preKeys }
      match wallet wPreKey with
      | none => .error .signerFailure
      | some secret =>
        .ok { walletPreKey := some wPreKey, ciphertext := some (encryptModel bytes secret) }

/-- `decode`: lines 120-145 of the source.  Parse the envelope; fail with
`missing wallet pre-key` if `walletPreKey` is absent; re-derive the secret
by signing the stored `walletPreKey`; fail with `missing bundle ciphertext`
if the `aes256GcmHkdfSha256` variant is absent; AEAD-decrypt; fail with
`missing identity key` / `missing pre-keys` if the inner bundle lacks
either; otherwise rebuild the `PrivateKeyBundle`. -/
def PrivateKeyBundle.decode (wallet : WalletSigner)
    (encrypted : EncryptedPrivateKeyBundleMsg) :
    Except KeyBundleError PrivateKeyBundle :=
  match encrypted.walletPreKey with
  | none => .error .missingWalletPreKey
  | some wPreKey =>
    match wallet wPreKey with
    | none => .error .signerFailure
    | some secret =>
      match encrypted.ciphertext with
      | none => .error .missingCiphertext
      | some c =>
        match c.aes256GcmHkdfSha256 with
        | none => .error .missingCiphertext
        | some _ =>
          match decryptModel c secret with
          | none => .error .decryptionFailure
          | some bundle =>
            match bundle.identityKey with
            | none => .error .missingIdentityKey
            | some identityKey =>
              if bundle.preKeys.length = 0 then .error .missingPreKeys
              else .ok { identityKey := some identityKey, preKeys := bundle.preKeys }

/-- Iterated `addPreKey` with one entropy draw per call, for the rotation
claims ("after `addPreKey` one or more times"). -/
def PrivateKeyBundle.addPreKeys (b : PrivateKeyBundle) :
    List Nat → Option PrivateKeyBundle
  | [] => some b
  | s :: rest =>
    match b.addPreKey s with
    | none => none
    | some b2 => b2.addPreKeys rest

/-! ## Helper lemmas -/

theorem pubPoint_inv (b : Nat) : (pubPoint b - 1) / 2 = b := by
  simp [pubPoint]

/-- Commutativity of the modelled Diffie-Hellman combine, the property the
spec requires of `PrivateKey.sharedSecret`. -/
theorem dh_comm (a b : Nat) : dhBytes a (pubPoint b) = dhBytes b (pubPoint a) := by
  simp [dhBytes, pubPoint_inv, Nat.mul_comm]

theorem generate_eq (idSecret preSecret : Nat) :
    PrivateKeyBundle.generate idSecret preSecret =
      { identityKey := some (PrivateKey.generate idSecret),
        preKeys := [mkSignedPreKey (PrivateKey.generate idSecret) preSecret] } := by
  rfl

/-! ## Claim C1 -/

/-- Claim C1, counterexample: with bundles `A = generate 1 2` and
`B = generate 3 5`, the recipient-role call that names **A's** current
pre-key as `recipientPreKey` — as the claim states it — fails with
`PreKeyNotFound` (B's `findPreKey` scans B's own pre-key list, which does
not contain A's pre-key), so it is not byte-for-byte equal to the
sender-role call, which succeeds. -/
theorem xmtp_C1_counterexample :
    (PrivateKeyBundle.generate 3 5).sharedSecret
        ((PrivateKeyBundle.generate 1 2).getPublicKeyBundle.getD ⟨none, none⟩)
        (some (((PrivateKeyBundle.generate 1 2).getCurrentPreKey.getD
            (PrivateKey.generate 0)).publicKey))
      = .error .preKeyNotFound
    ∧ (PrivateKeyBundle.generate 1 2).sharedSecret
        ((PrivateKeyBundle.generate 3 5).getPublicKeyBundle.getD ⟨none, none⟩) none
      ≠ (PrivateKeyBundle.generate 3 5).sharedSecret
        ((PrivateKeyBundle.generate 1 2).getPublicKeyBundle.getD ⟨none, none⟩)
        (some (((PrivateKeyBundle.generate 1 2).getCurrentPreKey.getD
            (PrivateKey.generate 0)).publicKey)) := by
  decide

/-- Claim C1, amended: for any two generated bundles A and B, the
sender-role call `A.sharedSecret(B.publicBundle())` returns bytes equal,
byte for byte, to the recipient-role call
`B.sharedSecret(A.publicBundle(), B.currentPreKeyPublic)` that names
**B's own** current pre-key as `recipientPreKey` (the underlying
Diffie-Hellman combine is commutative, `dh_comm`). -/
theorem xmtp_C1_theorem (ia pa ib pb : Nat) :
    (PrivateKeyBundle.generate ia pa).sharedSecret
        ((PrivateKeyBundle.generate ib pb).getPublicKeyBundle.getD ⟨none, none⟩) none
      = (PrivateKeyBundle.generate ib pb).sharedSecret
        ((PrivateKeyBundle.generate ia pa).getPublicKeyBundle.getD ⟨none, none⟩)
        (some (((PrivateKeyBundle.generate ib pb).getCurrentPreKey.getD
            (PrivateKey.generate 0)).publicKey)) := by
  simp only [generate_eq, PrivateKeyBundle.getPublicKeyBundle,
    PrivateKeyBundle.getCurrentPreKey, List.head?, Option.getD,
    PrivateKeyBundle.sharedSecret, PrivateKeyBundle.findPreKey,
    PublicKey.verifyKey, mkSignedPreKey, PrivateKey.signKey, PrivateKey.generate,
    PrivateKey.matches, PrivateKey.sharedSecret, List.find?, signBytes]
  simp [dh_comm ia pb, dh_comm pa ib, dh_comm pa pb]

/-! ## Claim C2 -/

/-- Claim C2: every successful `sharedSecret` call returns the byte
concatenation `dh1 ++ dh2 ++ dh3`, where in the sender role
(`recipientPreKey` absent) `dh1 = localIdentity × peerPreKey` and
`dh2 = localCurrentPreKey × peerIdentity`, in the recipient role
(`recipientPreKey` present) `dh1 = localSelectedPreKey × peerIdentity` and
`dh2 = localIdentity × peerPreKey`, and in both roles
`dh3 = localSelectedPreKey × peerPreKey`; conversely, whenever validation
passes and the local pre-key selection succeeds, the call returns exactly
that concatenation. -/
theorem xmtp_C2_theorem :
    (∀ (b : PrivateKeyBundle) (peer : PublicKeyBundle) (rpk : Option PublicKey)
        (s : List Nat),
       b.sharedSecret peer rpk = .ok s →
       ∃ idk pid ppk, b.identityKey = some idk ∧ peer.identityKey = some pid ∧
         peer.preKey = some ppk ∧
         ((rpk = none ∧ ∃ cur, b.getCurrentPreKey = some cur ∧
             s = idk.sharedSecret ppk ++ cur.sharedSecret pid ++ cur.sharedSecret ppk) ∨
          (∃ p, rpk = some p ∧ ∃ k, b.findPreKey p = .ok k ∧
             s = k.sharedSecret pid ++ idk.sharedSecret ppk ++ k.sharedSecret ppk))) ∧
    (∀ (b : PrivateKeyBundle) (peer : PublicKeyBundle) (idk : PrivateKey)
        (pid ppk : PublicKey),
       b.identityKey = some idk → peer.identityKey = some pid → peer.preKey = some ppk →
       pid.verifyKey ppk = true →
       (∀ cur, b.getCurrentPreKey = some cur →
          b.sharedSecret peer none =
            .ok (idk.sharedSecret ppk ++ cur.sharedSecret pid ++ cur.sharedSecret ppk)) ∧
       (∀ p k, b.findPreKey p = .ok k →
          b.sharedSecret peer (some p) =
            .ok (k.sharedSecret pid ++ idk.sharedSecret ppk ++ k.sharedSecret ppk))) := by
  constructor
  · intro b peer rpk s h
    cases hpi : peer.identityKey with
    | none => simp [PrivateKeyBundle.sharedSecret, hpi] at h
    | some pid =>
      cases hpp : peer.preKey with
      | none => simp [PrivateKeyBundle.sharedSecret, hpi, hpp] at h
      | some ppk =>
        by_cases hv : pid.verifyKey ppk
        · cases hid : b.identityKey with
          | none => simp [PrivateKeyBundle.sharedSecret, hpi, hpp, hv, hid] at h
          | some idk =>
            refine ⟨idk, pid, ppk, rfl, rfl, rfl, ?_⟩
            cases rpk with
            | none =>
              left
              cases hcur : b.getCurrentPreKey with
              | none => simp [PrivateKeyBundle.sharedSecret, hpi, hpp, hv, hid, hcur] at h
              | some cur =>
                simp [PrivateKeyBundle.sharedSecret, hpi, hpp, hv, hid, hcur] at h
                exact ⟨rfl, cur, rfl, h.symm⟩
            | some p =>
              right
              cases hfind : b.findPreKey p with
              | error e => simp [PrivateKeyBundle.sharedSecret, hpi, hpp, hv, hid, hfind] at h
              | ok k =>
                simp [PrivateKeyBundle.sharedSecret, hpi, hpp, hv, hid, hfind] at h
                exact ⟨p, rfl, k, hfind, h.symm⟩
        · rw [Bool.not_eq_true] at hv
          simp [PrivateKeyBundle.sharedSecret, hpi, hpp, hv] at h
  · intro b peer idk pid ppk hid hpi hpp hv
    constructor
    · intro cur hcur
      simp [PrivateKeyBundle.sharedSecret, hpi, hpp, hv, hid, hcur]
    · intro p k hfind
      simp [PrivateKeyBundle.sharedSecret, hpi, hpp, hv, hid, hfind]

/-- Claim C2, witness: the positive direction of `xmtp_C2_theorem`
evaluated on the concrete generated bundles `generate 1 2` (local) and
`generate 3 5` (peer), sender role. -/
theorem xmtp_C2_witness :
    (PrivateKeyBundle.generate 1 2).sharedSecret
        ((PrivateKeyBundle.generate 3 5).getPublicKeyBundle.getD ⟨none, none⟩) none
      = .ok ((PrivateKey.generate 1).sharedSecret
            (mkSignedPreKey (PrivateKey.generate 3) 5).publicKey
          ++ (mkSignedPreKey (PrivateKey.generate 1) 2).sharedSecret
            (PrivateKey.generate 3).publicKey
          ++ (mkSignedPreKey (PrivateKey.generate 1) 2).sharedSecret
            (mkSignedPreKey (PrivateKey.generate 3) 5).publicKey) :=
  (xmtp_C2_theorem.2 (PrivateKeyBundle.generate 1 2)
      ((PrivateKeyBundle.generate 3 5).getPublicKeyBundle.getD ⟨none, none⟩)
      (PrivateKey.generate 1) (PrivateKey.generate 3).publicKey
      (mkSignedPreKey (PrivateKey.generate 3) 5).publicKey
      rfl rfl rfl (by decide)).1
    (mkSignedPreKey (PrivateKey.generate 1) 2) rfl

/-! ## Claim C3 -/

/-- Claim C3: `sharedSecret` validates in a fixed order before any
Diffie-Hellman computation — `InvalidPeerBundle` if the peer bundle lacks
an identity key or a pre-key; otherwise `PreKeySignatureInvalid` if the
peer's pre-key signature does not verify against the peer's identity key
(regardless of the local bundle's state); otherwise `MissingIdentityKey` if
the local identity key is absent; and a secret is returned only when all
three checks pass. -/
theorem xmtp_C3_theorem :
    (∀ (b : PrivateKeyBundle) (peer : PublicKeyBundle) (rpk : Option PublicKey),
       peer.identityKey = none ∨ peer.preKey = none →
       b.sharedSecret peer rpk = .error .invalidPeerBundle) ∧
    (∀ (b : PrivateKeyBundle) (peer : PublicKeyBundle) (rpk : Option PublicKey)
        (pid ppk : PublicKey),
       peer.identityKey = some pid → peer.preKey = some ppk →
       pid.verifyKey ppk = false →
       b.sharedSecret peer rpk = .error .preKeySignatureInvalid) ∧
    (∀ (b : PrivateKeyBundle) (peer : PublicKeyBundle) (rpk : Option PublicKey)
        (pid ppk : PublicKey),
       peer.identityKey = some pid → peer.preKey = some ppk →
       pid.verifyKey ppk = true → b.identityKey = none →
       b.sharedSecret peer rpk = .error .missingIdentityKey) ∧
    (∀ (b : PrivateKeyBundle) (peer : PublicKeyBundle) (rpk : Option PublicKey)
        (s : List Nat),
       b.sharedSecret peer rpk = .ok s →
       ∃ pid ppk, peer.identityKey = some pid ∧ peer.preKey = some ppk ∧
         pid.verifyKey ppk = true ∧ b.identityKey.isSome) := by
  refine ⟨?_, ?_, ?_, ?_⟩
  · intro b peer rpk h
    rcases h with h | h
    · simp [PrivateKeyBundle.sharedSecret, h]
    · cases hpi : peer.identityKey <;> simp [PrivateKeyBundle.sharedSecret, hpi, h]
  · intro b peer rpk pid ppk hpi hpp hv
    simp [PrivateKeyBundle.sharedSecret, hpi, hpp, hv]
  · intro b peer rpk pid ppk hpi hpp hv hid
    simp [PrivateKeyBundle.sharedSecret, hpi, hpp, hv, hid]
  · intro b peer rpk s h
    cases hpi : peer.identityKey with
    | none => simp [PrivateKeyBundle.sharedSecret, hpi] at h
    | some pid =>
      cases hpp : peer.preKey with
      | none => simp [PrivateKeyBundle.sharedSecret, hpi, hpp] at h
      | some ppk =>
        refine ⟨pid, ppk, rfl, rfl, ?_, ?_⟩
        · by_contra hv
          rw [Bool.not_eq_true] at hv
          simp [PrivateKeyBundle.sharedSecret, hpi, hpp, hv] at h
        · cases hid : b.identityKey with
          | none =>
            exfalso
            by_cases hv : pid.verifyKey ppk <;>
              simp [PrivateKeyBundle.sharedSecret, hpi, hpp, hid, hv] at h
          | some idk => simp

/-- Claim C3, witness: the three error conjuncts of `xmtp_C3_theorem`
evaluated at concrete inputs — a peer bundle with no pre-key, a peer bundle
whose pre-key carries no valid signature, and a valid peer bundle paired
with a local bundle whose identity key is absent. -/
theorem xmtp_C3_witness :
    (PrivateKeyBundle.generate 1 2).sharedSecret
        ⟨some (PrivateKey.generate 3).publicKey, none⟩ none
      = .error .invalidPeerBundle
    ∧ (PrivateKeyBundle.generate 1 2).sharedSecret
        ⟨some (PrivateKey.generate 3).publicKey, some (PrivateKey.generate 5).publicKey⟩ none
      = .error .preKeySignatureInvalid
    ∧ (PrivateKeyBundle.mk none []).sharedSecret
        ((PrivateKeyBundle.generate 3 5).getPublicKeyBundle.getD ⟨none, none⟩) none
      = .error .missingIdentityKey :=
  ⟨xmtp_C3_theorem.1 (PrivateKeyBundle.generate 1 2)
      ⟨some (PrivateKey.generate 3).publicKey, none⟩ none (Or.inr rfl),
   xmtp_C3_theorem.2.1 (PrivateKeyBundle.generate 1 2)
      ⟨some (PrivateKey.generate 3).publicKey, some (PrivateKey.generate 5).publicKey⟩ none
      (PrivateKey.generate 3).publicKey (PrivateKey.generate 5).publicKey rfl rfl (by decide),
   xmtp_C3_theorem.2.2.1 (PrivateKeyBundle.mk none [])
      ((PrivateKeyBundle.generate 3 5).getPublicKeyBundle.getD ⟨none, none⟩) none
      (PrivateKey.generate 3).publicKey (mkSignedPreKey (PrivateKey.generate 3) 5).publicKey
      rfl rfl (by decide) rfl⟩

/-! ## Claim C4 -/

/-- Claim C4: for every bundle with at least one pre-key and a present
identity key, and a deterministic signer (the same signer function consulted
by both calls), `decode(signer, encode(signer))` succeeds and returns a
bundle whose identity key and pre-key sequence equal the original's in key
material and order. -/
theorem xmtp_C4_theorem (b : PrivateKeyBundle) (idk : PrivateKey)
    (wallet : WalletSigner) (wPreKey secret : List Nat)
    (hid : b.identityKey = some idk) (hpre : b.preKeys ≠ [])
    (hw : wallet wPreKey = some secret) :
    ∃ env, b.encode wallet wPreKey = .ok env ∧
      ∃ b2, PrivateKeyBundle.decode wallet env = .ok b2 ∧
        b2.identityKey = b.identityKey ∧ b2.preKeys = b.preKeys := by
  have hlen : ¬ b.preKeys.length = 0 := by
    simpa [List.length_eq_zero] using hpre
  refine ⟨{ walletPreKey := some wPreKey,
            ciphertext := some (encryptModel ⟨some idk, b.preKeys⟩ secret) }, ?_, ?_⟩
  · simp [PrivateKeyBundle.encode, hlen, hid, hw]
  · refine ⟨{ identityKey := some idk, preKeys := b.preKeys }, ?_, by simp [hid], rfl⟩
    simp [PrivateKeyBundle.decode, hw, encryptModel, decryptModel, hlen]

/-- Claim C4, witness: round trip of the concrete bundle `generate 1 2`
through a concrete deterministic signer. -/
theorem xmtp_C4_witness :
    ∃ env, (PrivateKeyBundle.generate 1 2).encode
        ((fun bs => some (7 :: bs)) : WalletSigner) [9] = .ok env ∧
      ∃ b2, PrivateKeyBundle.decode ((fun bs => some (7 :: bs)) : WalletSigner) env
          = .ok b2 ∧
        b2.identityKey = (PrivateKeyBundle.generate 1 2).identityKey ∧
        b2.preKeys = (PrivateKeyBundle.generate 1 2).preKeys :=
  xmtp_C4_theorem (PrivateKeyBundle.generate 1 2) (PrivateKey.generate 1)
    ((fun bs => some (7 :: bs)) : WalletSigner) [9] [7, 9] rfl (by decide) rfl

/-! ## Claim C5 -/

/-- Claim C5: `decode` fails with `MissingWalletPreKey` when the parsed
envelope has no `walletPreKey`; with `MissingCiphertext` when (the wallet
having produced a secret) the recognized AEAD ciphertext variant is absent;
after successful decryption it fails with `MissingIdentityKey` or
`MissingPreKeys` when the inner bundle lacks an identity key or any
pre-key; and it returns a bundle only when none of these conditions
hold. -/
theorem xmtp_C5_theorem :
    (∀ (wallet : WalletSigner) (env : EncryptedPrivateKeyBundleMsg),
       env.walletPreKey = none →
       PrivateKeyBundle.decode wallet env = .error .missingWalletPreKey) ∧
    (∀ (wallet : WalletSigner) (env : EncryptedPrivateKeyBundleMsg)
        (wpk secret : List Nat),
       env.walletPreKey = some wpk → wallet wpk = some secret →
       (env.ciphertext = none ∨
        ∃ c, env.ciphertext = some c ∧ c.aes256GcmHkdfSha256 = none) →
       PrivateKeyBundle.decode wallet env = .error .missingCiphertext) ∧
    (∀ (wallet : WalletSigner) (wpk secret : List Nat)
        (payload : ProtoPrivateKeyBundle),
       wallet wpk = some secret →
       PrivateKeyBundle.decode wallet
           ⟨some wpk, some (encryptModel payload secret)⟩
         = (if payload.identityKey = none then .error .missingIdentityKey
            else if payload.preKeys = [] then .error .missingPreKeys
            else .ok ⟨payload.identityKey, payload.preKeys⟩)) ∧
    (∀ (wallet : WalletSigner) (env : EncryptedPrivateKeyBundleMsg)
        (b2 : PrivateKeyBundle),
       PrivateKeyBundle.decode wallet env = .ok b2 →
       env.walletPreKey ≠ none ∧
       (∃ c a, env.ciphertext = some c ∧ c.aes256GcmHkdfSha256 = some a) ∧
       b2.identityKey ≠ none ∧ b2.preKeys ≠ []) := by
  refine ⟨?_, ?_, ?_, ?_⟩
  · intro wallet env h
    simp [PrivateKeyBundle.decode, h]
  · intro wallet env wpk secret hwpk hw h
    rcases h with h | ⟨c, hc, ha⟩
    · simp [PrivateKeyBundle.decode, hwpk, hw, h]
    · simp [PrivateKeyBundle.decode, hwpk, hw, hc, ha]
  · intro wallet wpk secret payload hw
    cases hpid : payload.identityKey with
    | none => simp [PrivateKeyBundle.decode, hw, encryptModel, decryptModel, hpid]
    | some idk =>
      by_cases hpre : payload.preKeys = []
      · simp [PrivateKeyBundle.decode, hw, encryptModel, decryptModel, hpid, hpre]
      · have hlen : ¬ payload.preKeys.length = 0 := by
          simpa [List.length_eq_zero] using hpre
        simp [PrivateKeyBundle.decode, hw, encryptModel, decryptModel, hpid, hpre, hlen]
  · intro wallet env b2 h
    cases hwpk : env.walletPreKey with
    | none => simp [PrivateKeyBundle.decode, hwpk] at h
    | some wpk =>
      cases hw : wallet wpk with
      | none => simp [PrivateKeyBundle.decode, hwpk, hw] at h
      | some secret =>
        cases hc : env.ciphertext with
        | none => simp [PrivateKeyBundle.decode, hwpk, hw, hc] at h
        | some c =>
          cases ha : c.aes256GcmHkdfSha256 with
          | none => simp [PrivateKeyBundle.decode, hwpk, hw, hc, ha] at h
          | some a =>
            refine ⟨by simp [hwpk], ⟨c, a, rfl, ha⟩, ?_⟩
            by_cases hkey : a.keyMaterial = secret
            · cases hpid : a.payload.identityKey with
              | none =>
                simp [PrivateKeyBundle.decode, hwpk, hw, hc, ha, decryptModel, hkey, hpid] at h
              | some pidk =>
                by_cases hlen : a.payload.preKeys.length = 0
                · simp [PrivateKeyBundle.decode, hwpk, hw, hc, ha, decryptModel,
                    hkey, hpid, hlen] at h
                · simp [PrivateKeyBundle.decode, hwpk, hw, hc, ha, decryptModel,
                    hkey, hpid, hlen] at h
                  constructor
                  · rw [← h]
                    simp
                  · rw [← h]
                    simpa [List.length_eq_zero] using hlen
            · simp [PrivateKeyBundle.decode, hwpk, hw, hc, ha, decryptModel, hkey] at h

/-- Claim C5, witness: the error conjuncts of `xmtp_C5_theorem` evaluated
at concrete envelopes — missing `walletPreKey`, missing ciphertext variant,
and decrypted inner bundles missing the identity key or all pre-keys. -/
theorem xmtp_C5_witness :
    PrivateKeyBundle.decode ((fun bs => some bs) : WalletSigner) ⟨none, none⟩
      = .error .missingWalletPreKey
    ∧ PrivateKeyBundle.decode ((fun bs => some bs) : WalletSigner) ⟨some [1], none⟩
      = .error .missingCiphertext
    ∧ PrivateKeyBundle.decode ((fun bs => some bs) : WalletSigner)
        ⟨some [1], some (encryptModel ⟨none, []⟩ [1])⟩
      = .error .missingIdentityKey
    ∧ PrivateKeyBundle.decode ((fun bs => some bs) : WalletSigner)
        ⟨some [1], some (encryptModel ⟨some (PrivateKey.generate 4), []⟩ [1])⟩
      = .error .missingPreKeys :=
  ⟨xmtp_C5_theorem.1 ((fun bs => some bs) : WalletSigner) ⟨none, none⟩ rfl,
   xmtp_C5_theorem.2.1 ((fun bs => some bs) : WalletSigner) ⟨some [1], none⟩
     [1] [1] rfl rfl (Or.inl rfl),
   (by
     simpa using
       xmtp_C5_theorem.2.2.1 ((fun bs => some bs) : WalletSigner) [1] [1] ⟨none, []⟩ rfl),
   (by
     simpa using
       xmtp_C5_theorem.2.2.1 ((fun bs => some bs) : WalletSigner) [1] [1]
         ⟨some (PrivateKey.generate 4), []⟩ rfl)⟩

/-! ## Claim C6 -/

/-- Claim C6: `generate()` always produces a bundle with exactly one
pre-key, and every successful `addPreKey` places the newly generated
(identity-signed) pre-key at index 0 while every previously held pre-key is
found at an index one higher than before, in its original relative
order. -/
theorem xmtp_C6_theorem :
    (∀ idSecret preSecret : Nat,
       (PrivateKeyBundle.generate idSecret preSecret).preKeys.length = 1) ∧
    (∀ (b : PrivateKeyBundle) (s : Nat) (b2 : PrivateKeyBundle),
       b.addPreKey s = some b2 →
       ∃ idk, b.identityKey = some idk ∧
         b2.preKeys.head? = some (mkSignedPreKey idk s) ∧
         b2.preKeys.length = b.preKeys.length + 1 ∧
         ∀ i : Nat, b2.preKeys[i + 1]? = b.preKeys[i]?) := by
  constructor
  · intro i p
    simp [generate_eq]
  · intro b s b2 h
    cases hid : b.identityKey with
    | none => simp [PrivateKeyBundle.addPreKey, hid] at h
    | some idk =>
      simp [PrivateKeyBundle.addPreKey, hid] at h
      exact ⟨idk, rfl, by simp [← h], by simp [← h], fun i => by simp [← h]⟩

/-- Claim C6, witness: `addPreKey` with entropy draw 7 on the concrete
bundle `generate 1 2`. -/
theorem xmtp_C6_witness :
    ∃ idk, (PrivateKeyBundle.generate 1 2).identityKey = some idk ∧
      (((PrivateKeyBundle.generate 1 2).addPreKey 7).getD
          (PrivateKeyBundle.generate 1 2)).preKeys.head?
        = some (mkSignedPreKey idk 7) ∧
      (((PrivateKeyBundle.generate 1 2).addPreKey 7).getD
          (PrivateKeyBundle.generate 1 2)).preKeys.length
        = (PrivateKeyBundle.generate 1 2).preKeys.length + 1 ∧
      ∀ i : Nat,
        (((PrivateKeyBundle.generate 1 2).addPreKey 7).getD
            (PrivateKeyBundle.generate 1 2)).preKeys[i + 1]?
          = (PrivateKeyBundle.generate 1 2).preKeys[i]? :=
  xmtp_C6_theorem.2 (PrivateKeyBundle.generate 1 2) 7
    (((PrivateKeyBundle.generate 1 2).addPreKey 7).getD (PrivateKeyBundle.generate 1 2))
    rfl

/-! ## Claims C7, C9, C10 helper lemmas -/

/-- `addPreKey` leaves the identity key unchanged and, as long as the new
key's public point differs from `p`'s, leaves `findPreKey p` unchanged. -/
theorem addPreKey_preserves (b b2 : PrivateKeyBundle) (s : Nat) (p : PublicKey)
    (hfresh : pubPoint s ≠ p.point) (h : b.addPreKey s = some b2) :
    b2.identityKey = b.identityKey ∧ b2.findPreKey p = b.findPreKey p := by
  cases hid : b.identityKey with
  | none => simp [PrivateKeyBundle.addPreKey, hid] at h
  | some idk =>
    simp [PrivateKeyBundle.addPreKey, hid] at h
    have hb : (pubPoint s == p.point) = false := by
      simpa using hfresh
    constructor
    · simp [← h, hid]
    · simp [← h, PrivateKeyBundle.findPreKey, List.find?, PrivateKey.matches,
        mkSignedPreKey, PrivateKey.signKey, PrivateKey.generate, hb]

/-- A recipient-role `sharedSecret` call depends on the local bundle only
through its identity key and the result of `findPreKey`. -/
theorem sharedSecret_congr (b b2 : PrivateKeyBundle) (p : PublicKey)
    (hid : b2.identityKey = b.identityKey) (hfind : b2.findPreKey p = b.findPreKey p)
    (peer : PublicKeyBundle) :
    b2.sharedSecret peer (some p) = b.sharedSecret peer (some p) := by
  simp [PrivateKeyBundle.sharedSecret, hid, hfind]

/-- Iterated `addPreKey` with fresh entropy (no new key colliding with
`p`): succeeds, keeps the identity key, leaves `findPreKey p` unchanged,
and leaves the key of the last entropy draw as the current pre-key. -/
theorem addPreKeys_props (p : PublicKey) :
    ∀ (secrets : List Nat) (b : PrivateKeyBundle) (idk : PrivateKey),
      b.identityKey = some idk →
      (∀ s ∈ secrets, pubPoint s ≠ p.point) → secrets ≠ [] →
      ∃ b2, b.addPreKeys secrets = some b2 ∧
        b2.identityKey = some idk ∧
        b2.findPreKey p = b.findPreKey p ∧
        ∃ sLast, secrets.getLast? = some sLast ∧
          b2.getCurrentPreKey = some (mkSignedPreKey idk sLast)
  | [], _, _, _, _, hne => absurd rfl hne
  | s :: rest, b, idk, hid, hfresh, _ => by
    have hstep : b.addPreKey s
        = some { b with preKeys := mkSignedPreKey idk s :: b.preKeys } := by
      simp [PrivateKeyBundle.addPreKey, hid]
    have hpres := addPreKey_preserves b _ s p (hfresh s (by simp)) hstep
    cases rest with
    | nil =>
      refine ⟨_, ?_, ?_, hpres.2, s, rfl, ?_⟩
      · simp [PrivateKeyBundle.addPreKeys, hstep]
      · simp [hid]
      · simp [PrivateKeyBundle.getCurrentPreKey]
    | cons s2 rest2 =>
      have hfresh2 : ∀ x ∈ s2 :: rest2, pubPoint x ≠ p.point := by
        intro x hx
        exact hfresh x (by simp [hx])
      obtain ⟨b2, hrec, hid2, hfind2, sLast, hlast, hcur⟩ :=
        addPreKeys_props p (s2 :: rest2)
          { b with preKeys := mkSignedPreKey idk s :: b.preKeys }
          idk (by simp [hid]) hfresh2 (by simp)
      refine ⟨b2, ?_, hid2, ?_, sLast, ?_, hcur⟩
      · show b.addPreKeys (s :: s2 :: rest2) = some b2
        rw [PrivateKeyBundle.addPreKeys, hstep]
        exact hrec
      · rw [hfind2, hpres.2]
      · simpa using hlast

/-! ## Claim C7 -/

/-- Claim C7: after a bundle performs `addPreKey` one or more times (with
fresh entropy, so no new key's public point collides with `p`), any pre-key
public half `p` that was findable before the rotations still finds the same
old private pre-key, every recipient-role `sharedSecret` naming `p` as
`recipientPreKey` is unchanged, and `getCurrentPreKey` now returns the most
recently added key. -/
theorem xmtp_C7_theorem (b : PrivateKeyBundle) (idk k : PrivateKey) (p : PublicKey)
    (secrets : List Nat)
    (hid : b.identityKey = some idk)
    (hfind : b.findPreKey p = .ok k)
    (hfresh : ∀ s ∈ secrets, pubPoint s ≠ p.point)
    (hne : secrets ≠ []) :
    ∃ b2, b.addPreKeys secrets = some b2 ∧
      b2.findPreKey p = .ok k ∧
      (∃ sLast, secrets.getLast? = some sLast ∧
        b2.getCurrentPreKey = some (mkSignedPreKey idk sLast)) ∧
      ∀ peer, b2.sharedSecret peer (some p) = b.sharedSecret peer (some p) := by
  obtain ⟨b2, hadd, hid2, hfind2, sLast, hlast, hcur⟩ :=
    addPreKeys_props p secrets b idk hid hfresh hne
  exact ⟨b2, hadd, by rw [hfind2, hfind], ⟨sLast, hlast, hcur⟩,
    fun peer => sharedSecret_congr b b2 p (by rw [hid2, hid]) hfind2 peer⟩

/-- Claim C7, witness: one rotation (entropy draw 7) of the concrete bundle
`generate 1 2`, looked up by its original current pre-key's public half. -/
theorem xmtp_C7_witness :
    ∃ b2, (PrivateKeyBundle.generate 1 2).addPreKeys [7] = some b2 ∧
      b2.findPreKey (mkSignedPreKey (PrivateKey.generate 1) 2).publicKey
        = .ok (mkSignedPreKey (PrivateKey.generate 1) 2) ∧
      (∃ sLast, ([7] : List Nat).getLast? = some sLast ∧
        b2.getCurrentPreKey = some (mkSignedPreKey (PrivateKey.generate 1) sLast)) ∧
      ∀ peer, b2.sharedSecret peer
          (some (mkSignedPreKey (PrivateKey.generate 1) 2).publicKey)
        = (PrivateKeyBundle.generate 1 2).sharedSecret peer
            (some (mkSignedPreKey (PrivateKey.generate 1) 2).publicKey) :=
  xmtp_C7_theorem (PrivateKeyBundle.generate 1 2) (PrivateKey.generate 1)
    (mkSignedPreKey (PrivateKey.generate 1) 2)
    (mkSignedPreKey (PrivateKey.generate 1) 2).publicKey [7]
    rfl (by decide) (by decide) (by decide)

/-! ## Claim C8 -/

/-- Claim C8, counterexample: a bundle with no identity key **and** no
pre-keys fails with `MissingPreKeys`, not `MissingIdentityKey` — the empty
pre-key check runs first — so the claim's "fails with MissingIdentityKey
for every bundle whose identity key is absent" is false as stated. -/
theorem xmtp_C8_counterexample :
    (PrivateKeyBundle.mk none []).identityKey = none
    ∧ (PrivateKeyBundle.mk none []).encode ((fun bs => some bs) : WalletSigner) []
        = .error .missingPreKeys
    ∧ (PrivateKeyBundle.mk none []).encode ((fun bs => some bs) : WalletSigner) []
        ≠ .error .missingIdentityKey := by
  decide

/-- Claim C8, amended: `encode(signer)` fails with `MissingPreKeys` for
every bundle whose pre-key list is empty, and with `MissingIdentityKey` for
every bundle whose identity key is absent but whose pre-key list is
non-empty (when both preconditions fail, `MissingPreKeys` wins, being
checked first); in either case the result is the same for every wallet
signer — including one that fails — so no encryption or signing is
performed; a bundle with at least one pre-key and a present identity key
passes both checks. -/
theorem xmtp_C8_theorem :
    (∀ (b : PrivateKeyBundle) (wallet : WalletSigner) (wpk : List Nat),
       b.preKeys = [] → b.encode wallet wpk = .error .missingPreKeys) ∧
    (∀ (b : PrivateKeyBundle) (wallet : WalletSigner) (wpk : List Nat),
       b.identityKey = none → b.preKeys ≠ [] →
       b.encode wallet wpk = .error .missingIdentityKey) ∧
    (∀ (b : PrivateKeyBundle) (wallet : WalletSigner) (wpk : List Nat)
        (idk : PrivateKey),
       b.identityKey = some idk → b.preKeys ≠ [] →
       b.encode wallet wpk ≠ .error .missingPreKeys ∧
       b.encode wallet wpk ≠ .error .missingIdentityKey) := by
  refine ⟨?_, ?_, ?_⟩
  · intro b wallet wpk h
    simp [PrivateKeyBundle.encode, h]
  · intro b wallet wpk hid hpre
    have hlen : ¬ b.preKeys.length = 0 := by
      simpa [List.length_eq_zero] using hpre
    simp [PrivateKeyBundle.encode, hlen, hid]
  · intro b wallet wpk idk hid hpre
    have hlen : ¬ b.preKeys.length = 0 := by
      simpa [List.length_eq_zero] using hpre
    cases hw : wallet wpk <;>
      simp [PrivateKeyBundle.encode, hlen, hid, hw]

/-- Claim C8, witness: the three conjuncts of `xmtp_C8_theorem` at concrete
bundles, using a wallet signer that always fails — showing the precondition
errors are produced without consulting the signer. -/
theorem xmtp_C8_witness :
    (PrivateKeyBundle.mk none []).encode ((fun _ => none) : WalletSigner) []
      = .error .missingPreKeys
    ∧ (PrivateKeyBundle.mk none [PrivateKey.generate 2]).encode
        ((fun _ => none) : WalletSigner) [] = .error .missingIdentityKey
    ∧ ((PrivateKeyBundle.generate 1 2).encode ((fun _ => none) : WalletSigner) []
        ≠ .error .missingPreKeys
      ∧ (PrivateKeyBundle.generate 1 2).encode ((fun _ => none) : WalletSigner) []
        ≠ .error .missingIdentityKey) :=
  ⟨xmtp_C8_theorem.1 (PrivateKeyBundle.mk none []) ((fun _ => none) : WalletSigner) [] rfl,
   xmtp_C8_theorem.2.1 (PrivateKeyBundle.mk none [PrivateKey.generate 2])
     ((fun _ => none) : WalletSigner) [] rfl (by decide),
   xmtp_C8_theorem.2.2 (PrivateKeyBundle.generate 1 2) ((fun _ => none) : WalletSigner) []
     (PrivateKey.generate 1) rfl (by decide)⟩

/-! ## Claim C9 -/

/-- Claim C9: `addPreKeyWith` commits its mutation only as the final step:
if the identity key's signing of the new pre-key fails or is cancelled
(`signResult = none`, or the call did not complete), the returned
post-state is exactly the original bundle, with the pre-key list unchanged
and no partially added key. -/
theorem xmtp_C9_theorem (b : PrivateKeyBundle) (s : Nat) (signResult : Option Nat)
    (h : signResult = none ∨ (b.addPreKeyWith s signResult).2 = false) :
    (b.addPreKeyWith s signResult).1 = b ∧
    (b.addPreKeyWith s signResult).1.preKeys = b.preKeys := by
  cases hid : b.identityKey with
  | none => simp [PrivateKeyBundle.addPreKeyWith, hid]
  | some idk =>
    cases signResult with
    | none => simp [PrivateKeyBundle.addPreKeyWith, hid]
    | some sig =>
      rcases h with h | h
      · exact absurd h (by simp)
      · simp [PrivateKeyBundle.addPreKeyWith, hid] at h

/-- Claim C9, witness: a cancelled signing step on the concrete bundle
`generate 1 2` leaves it untouched. -/
theorem xmtp_C9_witness :
    ((PrivateKeyBundle.generate 1 2).addPreKeyWith 7 none).1
      = PrivateKeyBundle.generate 1 2
    ∧ ((PrivateKeyBundle.generate 1 2).addPreKeyWith 7 none).1.preKeys
      = (PrivateKeyBundle.generate 1 2).preKeys :=
  xmtp_C9_theorem (PrivateKeyBundle.generate 1 2) 7 none (Or.inl rfl)

/-! ## Claim C10 -/

/-- Claim C10, counterexample: on the constructible bundle with an omitted
(hence empty) pre-key list, `getCurrentPreKey()` is indeed `undefined`
without an error, but `getPublicKeyBundle()` does **not** build a
`PublicKeyBundle` from an undefined pre-key — evaluating
`this.getCurrentPreKey().publicKey` throws a `TypeError` (modelled as
`none`), so no bundle is returned. -/
theorem xmtp_C10_counterexample :
    (PrivateKeyBundle.mkCtor (PrivateKey.generate 1) none).preKeys = []
    ∧ (PrivateKeyBundle.mkCtor (PrivateKey.generate 1) none).getCurrentPreKey = none
    ∧ (PrivateKeyBundle.mkCtor (PrivateKey.generate 1) none).getPublicKeyBundle
        = none := by
  decide

/-- Claim C10, amended: for every `PrivateKeyBundle` whose pre-key list is
empty — such a bundle is constructible, since the constructor defaults an
omitted `preKeys` argument to the empty list — `getCurrentPreKey()` returns
`undefined` without raising an error, and `getPublicKeyBundle()` then
throws a `TypeError` from the property access on the undefined pre-key,
rather than building a `PublicKeyBundle` or signaling a dedicated
corrupted-bundle error. -/
theorem xmtp_C10_theorem (idk : PrivateKey) (b : PrivateKeyBundle)
    (hb : b.preKeys = []) :
    (PrivateKeyBundle.mkCtor idk none).preKeys = [] ∧
    b.getCurrentPreKey = none ∧
    b.getPublicKeyBundle = none := by
  refine ⟨rfl, ?_, ?_⟩
  · simp [PrivateKeyBundle.getCurrentPreKey, hb]
  · cases hid : b.identityKey <;>
      simp [PrivateKeyBundle.getPublicKeyBundle, PrivateKeyBundle.getCurrentPreKey, hb, hid]

/-- Claim C10, witness: `xmtp_C10_theorem` at a concrete bundle with an
identity key but an empty pre-key list. -/
theorem xmtp_C10_witness :
    (PrivateKeyBundle.mkCtor (PrivateKey.generate 1) none).preKeys = [] ∧
    (PrivateKeyBundle.mk (some (PrivateKey.generate 1)) []).getCurrentPreKey = none ∧
    (PrivateKeyBundle.mk (some (PrivateKey.generate 1)) []).getPublicKeyBundle = none :=
  xmtp_C10_theorem (PrivateKey.generate 1)
    (PrivateKeyBundle.mk (some (PrivateKey.generate 1)) []) rfl

end Xmtp
